import Mathlib

/-!
Shallow embedding of `apps/web/app/api/stripe/integration/webhook/invoice-paid.ts`
(the `invoicePaid` handler of the dub repository).

All external collaborators (Prisma relational store, Upstash redis dedup
store, Tinybird event store, webhook / partner-notification dispatchers)
are modelled as fields of an explicit state record `St`, threaded through
the handler.  The commission rules engine `prepareEarnings` lives outside
the provided sources, so it is taken as an abstract function parameter of
the handler; likewise the fresh id produced by `nanoid(16)` is passed in
as a parameter `eventId`.  `waitUntil(...)` dispatches are modelled by
appending the dispatched payload to a list in the state.
-/

/-- A Stripe invoice, restricted to the fields the handler reads:
`customer` (the external billing customer id, cast to string in the
source), `id`, `amount_paid` (integer, minor currency units) and
`currency`. -/
structure StripeInvoice where
  customer : String
  id : String
  amount_paid : Int
  currency : String
deriving DecidableEq

/-- A Stripe event; the source reads `event.data.object as Stripe.Invoice`. -/
structure StripeEvent where
  data_object : StripeInvoice
deriving DecidableEq

/-- A customer row of the relational store, restricted to the fields read
by the handler: `id`, `stripeCustomerId` (lookup key), `projectId`
(workspace), and the `clickedAt` / `createdAt` timestamps used for the
webhook's click-attribution field. -/
structure Customer where
  id : String
  stripeCustomerId : String
  projectId : String
  clickedAt : Option Int
  createdAt : Int
deriving DecidableEq

/-- One row of the Tinybird lead-event result set: the handler reads
`link_id` and spreads the remaining attribution fields into the sale
record; those remaining fields are kept opaque in `attribution`.  The
`customer_id` field is the key `getLeadEvent` filters on. -/
structure LeadEventData where
  customer_id : String
  link_id : String
  attribution : String
deriving DecidableEq

/-- The sale record (`saleData` in the source): the lead event's fields
together with the fresh event id, constant event name and processor,
invoice amount / currency / id, and serialized raw-invoice metadata. -/
structure SaleEvent where
  customer_id : String
  link_id : String
  attribution : String
  event_id : String
  event_name : String
  payment_processor : String
  amount : Int
  currency : String
  invoice_id : String
  metadata : String
deriving DecidableEq

/-- A link row: `id` (lookup key), optional `programId`, `shortLink`
(used as the partner's referral link), and the mutable counters `sales`
and `saleAmount`. -/
structure Link where
  id : String
  programId : Option String
  shortLink : String
  sales : Int
  saleAmount : Int
deriving DecidableEq

/-- A workspace (`project`) row: `id` and the mutable counters `usage`
and `salesUsage`. -/
structure Project where
  id : String
  usage : Int
  salesUsage : Int
deriving DecidableEq

/-- A program record, opaque to the handler (selected whole by
`select: \x7b program: true \x7d` and passed through unchanged). -/
structure Program where
  id : String
deriving DecidableEq

/-- A program-enrollment row: the set of associated link ids (the
`links: \x7b some: \x7b id \x7d \x7d` membership filter), the selected
`program`, `partnerId` and `commissionAmount`. -/
structure ProgramEnrollment where
  linkIds : List String
  program : Program
  partnerId : String
  commissionAmount : Int
deriving DecidableEq

/-- The argument record the handler passes to `prepareEarnings`. -/
structure PrepareEarningsArgs where
  linkId : String
  customerId : String
  program : Program
  partnerId : String
  commissionAmount : Int
  eventType : String
  eventId : String
  saleAmount : Int
  saleCurrency : String
  saleInvoiceId : String
deriving DecidableEq

/-- The earnings record returned by the external `prepareEarnings`
collaborator; the handler only reads its `amount` and `earnings` fields
(with a non-null assertion in the source), the rest is opaque. -/
structure EarningsData where
  amount : Int
  earnings : Int
  rest : String
deriving DecidableEq

/-- The payload of a dispatched `notifyPartnerSale` task. -/
structure PartnerSalePayload where
  partnerId : String
  referralLink : String
  program : Program
  amount : Int
  earnings : Int
deriving DecidableEq

/-- The payload of a dispatched `sendWorkspaceWebhook` task: the trigger
name, the workspace, and the input handed to `transformSaleEventData`
(the sale record spread together with `clickedAt`, the updated link and
the customer). -/
structure WorkspaceWebhookPayload where
  trigger : String
  workspace : Project
  sale : SaleEvent
  clickedAt : Int
  link : Link
  customer : Customer
deriving DecidableEq

/-- The state of all external collaborators, threaded through the
handler.  `redisKeys` maps a key to the expiry (in seconds) it was set
with; dispatched fire-and-forget tasks are recorded in
`partnerSales` and `workspaceWebhooks`. -/
structure St where
  customers : List Customer
  redisKeys : List (String × Nat)
  leadEvents : List LeadEventData
  saleEvents : List SaleEvent
  links : List Link
  projects : List Project
  enrollments : List ProgramEnrollment
  earnings : List EarningsData
  partnerSales : List PartnerSalePayload
  workspaceWebhooks : List WorkspaceWebhookPayload
deriving DecidableEq

/-- The handler either returns a status string or propagates a thrown
error (from `findFirstOrThrow` / a failed `update`). -/
inductive HandlerResult where
  | ok (msg : String)
  | thrown (msg : String)
deriving DecidableEq

/-- The redis dedup key for an invoice id:
`dub_sale_events:invoiceId:$\x7binvoiceId\x7d`. -/
def dedupKey (invoiceId : String) : String :=
  "dub_sale_events:invoiceId:" ++ invoiceId

/-- The expiry passed to `redis.set` (`ex: 60 * 60 * 24 * 7`). -/
def dedupExpiry : Nat := 60 * 60 * 24 * 7

/-- Stand-in for `JSON.stringify(\x7b invoice \x7d)`: an opaque
serialization of the raw invoice, never parsed by the handler. -/
def serializeInvoice (invoice : StripeInvoice) : String :=
  "invoice:" ++ invoice.id ++ ":" ++ toString invoice.amount_paid ++ ":" ++
    invoice.currency ++ ":" ++ invoice.customer

/-- Shallow embedding of the `invoicePaid` handler of
`invoice-paid.ts`.  `prep` is the external `prepareEarnings` collaborator
and `eventId` the value of `nanoid(16)`.  Returns the final collaborator
state together with the returned status string or the propagated
error. -/
def invoicePaid (prep : PrepareEarningsArgs → EarningsData) (eventId : String)
    (event : StripeEvent) (s : St) : St × HandlerResult :=
  let invoice := event.data_object
  let stripeCustomerId := invoice.customer
  let invoiceId := invoice.id
  -- Find customer using stripeCustomerId
  match s.customers.find? (fun c => c.stripeCustomerId == stripeCustomerId) with
  | none =>
    (s, .ok ("Customer with stripeCustomerId " ++ stripeCustomerId ++
      " not found, skipping..."))
  | some customer =>
    -- Skip if invoice id is already processed (redis SET NX with expiry)
    if ((s.redisKeys.find? (fun kv => kv.1 == dedupKey invoiceId)).isSome) then
      (s, .ok ("Invoice with ID " ++ invoiceId ++ " already processed, skipping..."))
    else
      let s1 : St := { s with redisKeys := (dedupKey invoiceId, dedupExpiry) :: s.redisKeys }
      if invoice.amount_paid == 0 then
        (s1, .ok ("Invoice with ID " ++ invoiceId ++ " has an amount of 0, skipping..."))
      else
        -- Find lead
        match s1.leadEvents.filter (fun e => e.customer_id == customer.id) with
        | [] =>
          (s1, .ok ("Lead event with customer ID " ++ customer.id ++
            " not found, skipping..."))
        | lead :: _ =>
          let saleData : SaleEvent :=
            { customer_id := lead.customer_id
              link_id := lead.link_id
              attribution := lead.attribution
              event_id := eventId
              event_name := "Subscription update"
              payment_processor := "stripe"
              amount := invoice.amount_paid
              currency := invoice.currency
              invoice_id := invoiceId
              metadata := serializeInvoice invoice }
          let linkId := lead.link_id
          match s1.links.find? (fun l => l.id == linkId) with
          | none =>
            (s1, .ok ("Link with ID " ++ linkId ++ " not found, skipping..."))
          | some link =>
            -- Promise.all: record sale, increment link counters,
            -- increment workspace counters
            let linkUpdated : Link :=
              { link with sales := link.sales + 1
                          saleAmount := link.saleAmount + invoice.amount_paid }
            let s2 : St := { s1 with
              saleEvents := s1.saleEvents ++ [saleData]
              links := s1.links.map (fun l =>
                if l.id == linkId then
                  { l with sales := l.sales + 1
                           saleAmount := l.saleAmount + invoice.amount_paid }
                else l) }
            match s2.projects.find? (fun p => p.id == customer.projectId) with
            | none =>
              (s2, .thrown "Record to update not found.")
            | some proj =>
              let workspace : Project :=
                { proj with usage := proj.usage + 1
                            salesUsage := proj.salesUsage + invoice.amount_paid }
              let s3 : St := { s2 with
                projects := s2.projects.map (fun p =>
                  if p.id == customer.projectId then
                    { p with usage := p.usage + 1
                             salesUsage := p.salesUsage + invoice.amount_paid }
                  else p) }
              -- for program links
              let afterProgram : St × HandlerResult ⊕ St :=
                match link.programId with
                | none => .inr s3
                | some _ =>
                  match s3.enrollments.find? (fun en => en.linkIds.contains link.id) with
                  | none =>
                    .inl (s3, .thrown ("No ProgramEnrollment found for link " ++ link.id))
                  | some en =>
                    let earningsData := prep
                      { linkId := link.id
                        customerId := customer.id
                        program := en.program
                        partnerId := en.partnerId
                        commissionAmount := en.commissionAmount
                        eventType := "sale"
                        eventId := eventId
                        saleAmount := saleData.amount
                        saleCurrency := saleData.currency
                        saleInvoiceId := saleData.invoice_id }
                    .inr { s3 with
                      earnings := s3.earnings ++ [earningsData]
                      partnerSales := s3.partnerSales ++
                        [{ partnerId := en.partnerId
                           referralLink := link.shortLink
                           program := en.program
                           amount := earningsData.amount
                           earnings := earningsData.earnings }] }
              match afterProgram with
              | .inl err => err
              | .inr s4 =>
                -- send workspace webhook
                let s5 : St := { s4 with
                  workspaceWebhooks := s4.workspaceWebhooks ++
                    [{ trigger := "sale.created"
                       workspace := workspace
                       sale := saleData
                       clickedAt := customer.clickedAt.getD customer.createdAt
                       link := linkUpdated
                       customer := customer }] }
                (s5, .ok ("Sale recorded for customer ID " ++ customer.id ++
                  " and invoice ID " ++ invoiceId))

/-- A trivial stand-in `prepareEarnings` used for concrete scenarios in
which the program branch is not taken (or its exact output is irrelevant). -/
def prep0 : PrepareEarningsArgs → EarningsData :=
  fun a => { amount := a.saleAmount, earnings := a.commissionAmount, rest := "" }

/-- The customer record of the concrete scenario. -/
def cust1 : Customer :=
  { id := "cus_1", stripeCustomerId := "scus_1", projectId := "ws_1",
    clickedAt := some 1000, createdAt := 900 }

/-- The lead event of the concrete scenario (`link_id = "link_1"`). -/
def lead1 : LeadEventData :=
  { customer_id := "cus_1", link_id := "link_1", attribution := "attr" }

/-- The link of the concrete scenario (`programId = null`). -/
def link1 : Link :=
  { id := "link_1", programId := none, shortLink := "https://d.to/abc",
    sales := 2, saleAmount := 100 }

/-- The workspace of the concrete scenario. -/
def proj1 : Project := { id := "ws_1", usage := 5, salesUsage := 1000 }

/-- Initial state for the concrete scenario of the spec: customer
`cus_1` (stripe id `scus_1`, workspace `ws_1`), one lead event with
`link_id = "link_1"`, link `link_1` with `programId = null`, workspace
`ws_1`. -/
def s0 : St :=
  { customers := [cust1]
    redisKeys := []
    leadEvents := [lead1]
    saleEvents := []
    links := [link1]
    projects := [proj1]
    enrollments := []
    earnings := []
    partnerSales := []
    workspaceWebhooks := [] }

/-- The concrete invoice `in_1` for customer `cus_1` with
`amount_paid = 500`, `currency = "usd"`. -/
def ev0 : StripeEvent :=
  { data_object := { customer := "scus_1", id := "in_1",
                     amount_paid := 500, currency := "usd" } }

/-- A zero-amount invoice for customer `cus_1`. -/
def evZero : StripeEvent :=
  { data_object := { customer := "scus_1", id := "in_0",
                     amount_paid := 0, currency := "usd" } }

/-- The scenario state with the dedup key for invoice `in_1` already
present (a prior delivery already claimed it). -/
def sDup : St :=
  { s0 with redisKeys := [(dedupKey "in_1", dedupExpiry)] }

/-- An invoice for a stripe customer id that resolves to no customer
record. -/
def evNoCust : StripeEvent :=
  { data_object := { customer := "scus_missing", id := "in_2",
                     amount_paid := 500, currency := "usd" } }

/-- An invoice with a negative `amount_paid` (the source's zero-amount
guard is an exact `=== 0` comparison, so a negative amount passes it). -/
def evNeg : StripeEvent :=
  { data_object := { customer := "scus_1", id := "in_neg",
                     amount_paid := -1, currency := "usd" } }

/-- The scenario state with no lead events at all. -/
def sNoLead : St := { s0 with leadEvents := [] }

/-- A link associated with a commission program `prog_1`. -/
def linkP : Link :=
  { id := "link_2", programId := some "prog_1", shortLink := "https://d.to/p",
    sales := 7, saleAmount := 300 }

/-- A lead event attributing customer `cus_1` to the program link. -/
def leadP : LeadEventData :=
  { customer_id := "cus_1", link_id := "link_2", attribution := "attr2" }

/-- The enrollment of partner `pt_1` in program `prog_1` via `link_2`. -/
def enr1 : ProgramEnrollment :=
  { linkIds := ["link_2"], program := { id := "prog_1" },
    partnerId := "pt_1", commissionAmount := 50 }

/-- The concrete scenario rerouted through the program link `link_2`,
with the matching enrollment present. -/
def sProg : St :=
  { s0 with leadEvents := [leadP], links := [linkP], enrollments := [enr1] }

/-- The program-link scenario with no enrollment at all (the
data-integrity anomaly `findFirstOrThrow` turns into a thrown error). -/
def sProgNoEnroll : St := { sProg with enrollments := [] }

/-- C1: in the concrete scenario (customer `cus_1` exists, invoice
`in_1` has `amount_paid = 500` and currency `usd`, a lead event exists
with `link_id = "link_1"`, link `link_1` has no program id), the handler
increments the link's `sales` by 1 and `saleAmount` by 500, increments
the workspace's `usage` by 1 and `salesUsage` by 500, appends exactly one
sale event with amount 500, creates no earnings record, dispatches one
workspace webhook with trigger `sale.created`, and returns
`Sale recorded for customer ID cus_1 and invoice ID in_1`. -/
theorem invoicePaid_concrete_scenario :
    (invoicePaid prep0 "evt00000000000001" ev0 s0).2 =
      .ok "Sale recorded for customer ID cus_1 and invoice ID in_1" ∧
    ((invoicePaid prep0 "evt00000000000001" ev0 s0).1.links.map
        (fun l => (l.id, l.sales, l.saleAmount))) = [("link_1", 3, 600)] ∧
    ((invoicePaid prep0 "evt00000000000001" ev0 s0).1.projects.map
        (fun p => (p.id, p.usage, p.salesUsage))) = [("ws_1", 6, 1500)] ∧
    ((invoicePaid prep0 "evt00000000000001" ev0 s0).1.saleEvents.map
        SaleEvent.amount) = [500] ∧
    (invoicePaid prep0 "evt00000000000001" ev0 s0).1.earnings = [] ∧
    ((invoicePaid prep0 "evt00000000000001" ev0 s0).1.workspaceWebhooks.map
        WorkspaceWebhookPayload.trigger) = ["sale.created"] := by
  decide

/-- C10: when the external billing customer id resolves to no customer
record, the handler returns its skip message with the collaborator state
fully unchanged — in particular the dedup claim is never attempted, so
the idempotency key for the invoice id is not consumed and a later
re-delivery of the same invoice id will pass the dedup check. -/
theorem invoicePaid_customer_not_found (prep : PrepareEarningsArgs → EarningsData)
    (eventId : String) (event : StripeEvent) (s : St)
    (hc : s.customers.find?
      (fun c => c.stripeCustomerId == event.data_object.customer) = none) :
    invoicePaid prep eventId event s =
      (s, .ok ("Customer with stripeCustomerId " ++ event.data_object.customer ++
        " not found, skipping...")) ∧
    (s.redisKeys.find? (fun kv => kv.1 == dedupKey event.data_object.id) = none →
      (invoicePaid prep eventId event s).1.redisKeys.find?
        (fun kv => kv.1 == dedupKey event.data_object.id) = none) := by
  constructor
  · simp only [invoicePaid, hc]
  · intro h
    simp only [invoicePaid, hc, h]

/-- Witness for `invoicePaid_customer_not_found` at the concrete state
`s0` and event `evNoCust`. -/
theorem invoicePaid_customer_not_found_witness :
    invoicePaid prep0 "e" evNoCust s0 =
      (s0, .ok "Customer with stripeCustomerId scus_missing not found, skipping...") ∧
    (s0.redisKeys.find? (fun kv => kv.1 == dedupKey evNoCust.data_object.id) = none →
      (invoicePaid prep0 "e" evNoCust s0).1.redisKeys.find?
        (fun kv => kv.1 == dedupKey evNoCust.data_object.id) = none) :=
  invoicePaid_customer_not_found prep0 "e" evNoCust s0 (by decide)

/-- C2: when the customer is found, the dedup claim succeeds and the
invoice's `amount_paid` is 0, the handler returns the zero-amount skip
message and the only state change is the dedup key for the invoice id,
set with its expiry: no sale event, no link or workspace counter change,
no earnings record, no dispatched notification or webhook. -/
theorem invoicePaid_zero_amount (prep : PrepareEarningsArgs → EarningsData)
    (eventId : String) (event : StripeEvent) (s : St) (customer : Customer)
    (hc : s.customers.find?
      (fun c => c.stripeCustomerId == event.data_object.customer) = some customer)
    (hk : s.redisKeys.find? (fun kv => kv.1 == dedupKey event.data_object.id) = none)
    (h0 : event.data_object.amount_paid = 0) :
    invoicePaid prep eventId event s =
      ({ s with redisKeys := (dedupKey event.data_object.id, dedupExpiry) :: s.redisKeys },
       .ok ("Invoice with ID " ++ event.data_object.id ++
         " has an amount of 0, skipping...")) := by
  simp only [invoicePaid, hc, hk, h0]
  simp

/-- Witness for `invoicePaid_zero_amount` at the concrete state `s0` and
zero-amount event `evZero`. -/
theorem invoicePaid_zero_amount_witness :
    invoicePaid prep0 "e" evZero s0 =
      ({ s0 with redisKeys := (dedupKey "in_0", dedupExpiry) :: s0.redisKeys },
       .ok "Invoice with ID in_0 has an amount of 0, skipping...") :=
  invoicePaid_zero_amount prep0 "e" evZero s0
    { id := "cus_1", stripeCustomerId := "scus_1", projectId := "ws_1",
      clickedAt := some 1000, createdAt := 900 }
    (by decide) (by decide) (by decide)

/-- C3: when the customer is found but the dedup claim fails (the key
for the invoice id already exists), the handler returns the
already-processed skip message and the collaborator state is completely
unchanged: no sale event, no counter increments, no earnings, no
dispatched notification or webhook — re-delivering the same invoice id
within the window never produces a second sale event, regardless of the
payload's content. -/
theorem invoicePaid_duplicate_invoice (prep : PrepareEarningsArgs → EarningsData)
    (eventId : String) (event : StripeEvent) (s : St) (customer : Customer)
    (hc : s.customers.find?
      (fun c => c.stripeCustomerId == event.data_object.customer) = some customer)
    (hk : (s.redisKeys.find?
      (fun kv => kv.1 == dedupKey event.data_object.id)).isSome = true) :
    invoicePaid prep eventId event s =
      (s, .ok ("Invoice with ID " ++ event.data_object.id ++
        " already processed, skipping...")) := by
  simp only [invoicePaid, hc, hk]
  simp

/-- Witness for `invoicePaid_duplicate_invoice`: re-delivery of invoice
`in_1` against the state `sDup` in which its key was already claimed. -/
theorem invoicePaid_duplicate_invoice_witness :
    invoicePaid prep0 "e" ev0 sDup =
      (sDup, .ok "Invoice with ID in_1 already processed, skipping...") :=
  invoicePaid_duplicate_invoice prep0 "e" ev0 sDup
    { id := "cus_1", stripeCustomerId := "scus_1", projectId := "ws_1",
      clickedAt := some 1000, createdAt := 900 }
    (by decide) (by decide)

/-- C7: when the customer is found, the dedup claim succeeds and the
amount is nonzero but no prior lead event exists for the customer, the
handler returns the lead-not-found skip message and the only state
change is the consumed dedup key: no sale event, no link or workspace
counter change, no earnings record, no dispatched notification or
webhook. -/
theorem invoicePaid_no_lead_event (prep : PrepareEarningsArgs → EarningsData)
    (eventId : String) (event : StripeEvent) (s : St) (customer : Customer)
    (hc : s.customers.find?
      (fun c => c.stripeCustomerId == event.data_object.customer) = some customer)
    (hk : s.redisKeys.find? (fun kv => kv.1 == dedupKey event.data_object.id) = none)
    (h0 : event.data_object.amount_paid ≠ 0)
    (hl : s.leadEvents.filter (fun e => e.customer_id == customer.id) = []) :
    invoicePaid prep eventId event s =
      ({ s with redisKeys := (dedupKey event.data_object.id, dedupExpiry) :: s.redisKeys },
       .ok ("Lead event with customer ID " ++ customer.id ++
         " not found, skipping...")) := by
  simp only [invoicePaid, hc, hk, hl]
  simp [h0]

/-- Witness for `invoicePaid_no_lead_event` at the concrete state
`sNoLead` (customer `cus_1` present, no lead events). -/
theorem invoicePaid_no_lead_event_witness :
    invoicePaid prep0 "e" ev0 sNoLead =
      ({ sNoLead with redisKeys := (dedupKey "in_1", dedupExpiry) :: sNoLead.redisKeys },
       .ok "Lead event with customer ID cus_1 not found, skipping...") :=
  invoicePaid_no_lead_event prep0 "e" ev0 sNoLead
    { id := "cus_1", stripeCustomerId := "scus_1", projectId := "ws_1",
      clickedAt := some 1000, createdAt := 900 }
    (by decide) (by decide) (by decide) (by decide)

/-- C4, counterexample to the claim as stated: the zero-amount guard in
the source is an exact `=== 0` check, so an invoice with
`amount_paid = -1` is processed and a sale event is recorded even though
the amount paid is not strictly greater than 0. -/
theorem invoicePaid_sale_conditions_counterexample :
    (invoicePaid prep0 "e" evNeg s0).1.saleEvents ≠ s0.saleEvents ∧
    ¬ (evNeg.data_object.amount_paid > 0) := by
  decide

/-- C4, amended: whenever the handler records a sale event, the customer
lookup by external billing customer id succeeded, the invoice's amount
paid was nonzero (the code guards only against exactly zero, not against
negative amounts), and a prior lead event existed for that customer. -/
theorem invoicePaid_sale_conditions (prep : PrepareEarningsArgs → EarningsData)
    (eventId : String) (event : StripeEvent) (s : St)
    (h : (invoicePaid prep eventId event s).1.saleEvents ≠ s.saleEvents) :
    ∃ customer, s.customers.find?
        (fun c => c.stripeCustomerId == event.data_object.customer) = some customer ∧
      event.data_object.amount_paid ≠ 0 ∧
      s.leadEvents.filter (fun e => e.customer_id == customer.id) ≠ [] := by
  cases hc : s.customers.find? (fun c => c.stripeCustomerId == event.data_object.customer) with
  | none => exact absurd (by simp only [invoicePaid, hc]) h
  | some customer =>
    refine ⟨customer, rfl, ?_, ?_⟩
    · intro h0
      refine h ?_
      simp only [invoicePaid, hc, h0]
      split
      · rfl
      · simp
    · intro hl
      refine h ?_
      simp only [invoicePaid, hc, hl]
      split
      · rfl
      · split
        · rfl
        · simp

/-- Witness for `invoicePaid_sale_conditions` at the concrete scenario,
where a sale event is recorded. -/
theorem invoicePaid_sale_conditions_witness :
    ∃ customer, s0.customers.find?
        (fun c => c.stripeCustomerId == ev0.data_object.customer) = some customer ∧
      ev0.data_object.amount_paid ≠ 0 ∧
      s0.leadEvents.filter (fun e => e.customer_id == customer.id) ≠ [] :=
  invoicePaid_sale_conditions prep0 "evt00000000000001" ev0 s0 (by decide)

/-- C5: for a processed sale whose resolved link has a non-null program
id (and whose enrollment is found), exactly one earnings record — the
output of `prepareEarnings` — is appended, and the `amount` and
`earnings` fields of that record are passed unchanged into the
partner-sale notification payload; the handler returns its success
message. -/
theorem invoicePaid_program_earnings (prep : PrepareEarningsArgs → EarningsData)
    (eventId : String) (event : StripeEvent) (s : St) (customer : Customer)
    (lead : LeadEventData) (rest : List LeadEventData) (link : Link)
    (pid : String) (proj : Project) (en : ProgramEnrollment)
    (hc : s.customers.find?
      (fun c => c.stripeCustomerId == event.data_object.customer) = some customer)
    (hk : s.redisKeys.find? (fun kv => kv.1 == dedupKey event.data_object.id) = none)
    (h0 : event.data_object.amount_paid ≠ 0)
    (hl : s.leadEvents.filter (fun e => e.customer_id == customer.id) = lead :: rest)
    (hlink : s.links.find? (fun l => l.id == lead.link_id) = some link)
    (hp : link.programId = some pid)
    (hproj : s.projects.find? (fun p => p.id == customer.projectId) = some proj)
    (hen : s.enrollments.find? (fun en => en.linkIds.contains link.id) = some en) :
    ∃ ed,
      (invoicePaid prep eventId event s).1.earnings = s.earnings ++ [ed] ∧
      (invoicePaid prep eventId event s).1.partnerSales = s.partnerSales ++
        [{ partnerId := en.partnerId, referralLink := link.shortLink,
           program := en.program, amount := ed.amount, earnings := ed.earnings }] ∧
      (invoicePaid prep eventId event s).2 =
        .ok ("Sale recorded for customer ID " ++ customer.id ++
          " and invoice ID " ++ event.data_object.id) := by
  have h0' : (event.data_object.amount_paid == 0) = false := by simp [h0]
  simp only [invoicePaid, hc, hk, h0', hl, hlink, hp, hproj, hen]
  refine ⟨prep { linkId := link.id, customerId := customer.id, program := en.program, partnerId := en.partnerId, commissionAmount := en.commissionAmount, eventType := "sale", eventId := eventId, saleAmount := event.data_object.amount_paid, saleCurrency := event.data_object.currency, saleInvoiceId := event.data_object.id }, ?_, ?_, ?_⟩ <;> simp

/-- Witness for `invoicePaid_program_earnings` at the program-link
scenario `sProg`. -/
theorem invoicePaid_program_earnings_witness :
    ∃ ed,
      (invoicePaid prep0 "e" ev0 sProg).1.earnings = sProg.earnings ++ [ed] ∧
      (invoicePaid prep0 "e" ev0 sProg).1.partnerSales = sProg.partnerSales ++
        [{ partnerId := enr1.partnerId, referralLink := linkP.shortLink,
           program := enr1.program, amount := ed.amount, earnings := ed.earnings }] ∧
      (invoicePaid prep0 "e" ev0 sProg).2 =
        .ok ("Sale recorded for customer ID " ++ cust1.id ++
          " and invoice ID " ++ ev0.data_object.id) :=
  invoicePaid_program_earnings prep0 "e" ev0 sProg cust1 leadP [] linkP "prog_1"
    proj1 enr1 (by decide) (by decide) (by decide) (by decide) (by decide)
    (by decide) (by decide) (by decide)

/-- C6: for a processed sale whose resolved link has a null program id,
no earnings record is created and no partner notification is dispatched,
while exactly one workspace webhook with trigger `sale.created` is still
dispatched and the handler returns its success message. -/
theorem invoicePaid_null_program (prep : PrepareEarningsArgs → EarningsData)
    (eventId : String) (event : StripeEvent) (s : St) (customer : Customer)
    (lead : LeadEventData) (rest : List LeadEventData) (link : Link)
    (proj : Project)
    (hc : s.customers.find?
      (fun c => c.stripeCustomerId == event.data_object.customer) = some customer)
    (hk : s.redisKeys.find? (fun kv => kv.1 == dedupKey event.data_object.id) = none)
    (h0 : event.data_object.amount_paid ≠ 0)
    (hl : s.leadEvents.filter (fun e => e.customer_id == customer.id) = lead :: rest)
    (hlink : s.links.find? (fun l => l.id == lead.link_id) = some link)
    (hp : link.programId = none)
    (hproj : s.projects.find? (fun p => p.id == customer.projectId) = some proj) :
    (invoicePaid prep eventId event s).1.earnings = s.earnings ∧
    (invoicePaid prep eventId event s).1.partnerSales = s.partnerSales ∧
    (∃ wh, (invoicePaid prep eventId event s).1.workspaceWebhooks =
        s.workspaceWebhooks ++ [wh] ∧ wh.trigger = "sale.created") ∧
    (invoicePaid prep eventId event s).2 =
      .ok ("Sale recorded for customer ID " ++ customer.id ++
        " and invoice ID " ++ event.data_object.id) := by
  have h0' : (event.data_object.amount_paid == 0) = false := by simp [h0]
  simp only [invoicePaid, hc, hk, h0', hl, hlink, hp, hproj]
  simp only [Option.isSome_none, Bool.false_eq_true, if_false]
  exact ⟨trivial, trivial, ⟨_, rfl, rfl⟩, trivial⟩

/-- Witness for `invoicePaid_null_program` at the concrete scenario
`s0` (link `link_1` has no program id). -/
theorem invoicePaid_null_program_witness :
    (invoicePaid prep0 "e" ev0 s0).1.earnings = s0.earnings ∧
    (invoicePaid prep0 "e" ev0 s0).1.partnerSales = s0.partnerSales ∧
    (∃ wh, (invoicePaid prep0 "e" ev0 s0).1.workspaceWebhooks =
        s0.workspaceWebhooks ++ [wh] ∧ wh.trigger = "sale.created") ∧
    (invoicePaid prep0 "e" ev0 s0).2 =
      .ok ("Sale recorded for customer ID " ++ cust1.id ++
        " and invoice ID " ++ ev0.data_object.id) :=
  invoicePaid_null_program prep0 "e" ev0 s0 cust1 lead1 [] link1 proj1
    (by decide) (by decide) (by decide) (by decide) (by decide) (by decide)
    (by decide)

/-- C8: when the resolved link has a non-null program id but no
enrollment contains that link, the handler propagates a thrown error
(from `findFirstOrThrow`) instead of returning a skip message, and the
state changes of the parallel write step — the appended sale event and
the link and workspace counter increments — have already occurred and
are not rolled back; no earnings, notification or webhook is produced. -/
theorem invoicePaid_enrollment_missing (prep : PrepareEarningsArgs → EarningsData)
    (eventId : String) (event : StripeEvent) (s : St) (customer : Customer)
    (lead : LeadEventData) (rest : List LeadEventData) (link : Link)
    (pid : String) (proj : Project)
    (hc : s.customers.find?
      (fun c => c.stripeCustomerId == event.data_object.customer) = some customer)
    (hk : s.redisKeys.find? (fun kv => kv.1 == dedupKey event.data_object.id) = none)
    (h0 : event.data_object.amount_paid ≠ 0)
    (hl : s.leadEvents.filter (fun e => e.customer_id == customer.id) = lead :: rest)
    (hlink : s.links.find? (fun l => l.id == lead.link_id) = some link)
    (hp : link.programId = some pid)
    (hproj : s.projects.find? (fun p => p.id == customer.projectId) = some proj)
    (hen : s.enrollments.find? (fun en => en.linkIds.contains link.id) = none) :
    invoicePaid prep eventId event s =
      ({ s with
          redisKeys := (dedupKey event.data_object.id, dedupExpiry) :: s.redisKeys,
          saleEvents := s.saleEvents ++
            [{ customer_id := lead.customer_id, link_id := lead.link_id,
               attribution := lead.attribution, event_id := eventId,
               event_name := "Subscription update", payment_processor := "stripe",
               amount := event.data_object.amount_paid,
               currency := event.data_object.currency,
               invoice_id := event.data_object.id,
               metadata := serializeInvoice event.data_object }],
          links := s.links.map (fun l =>
            if l.id == lead.link_id then
              { l with sales := l.sales + 1,
                       saleAmount := l.saleAmount + event.data_object.amount_paid }
            else l),
          projects := s.projects.map (fun p =>
            if p.id == customer.projectId then
              { p with usage := p.usage + 1,
                       salesUsage := p.salesUsage + event.data_object.amount_paid }
            else p) },
       .thrown ("No ProgramEnrollment found for link " ++ link.id)) := by
  have h0' : (event.data_object.amount_paid == 0) = false := by simp [h0]
  simp only [invoicePaid, hc, hk, h0', hl, hlink, hp, hproj, hen]
  simp

/-- Witness for `invoicePaid_enrollment_missing` at the program-link
scenario `sProgNoEnroll` (no enrollment rows). -/
theorem invoicePaid_enrollment_missing_witness :
    invoicePaid prep0 "e" ev0 sProgNoEnroll =
      ({ sProgNoEnroll with
          redisKeys := (dedupKey ev0.data_object.id, dedupExpiry) :: sProgNoEnroll.redisKeys,
          saleEvents := sProgNoEnroll.saleEvents ++
            [{ customer_id := leadP.customer_id, link_id := leadP.link_id,
               attribution := leadP.attribution, event_id := "e",
               event_name := "Subscription update", payment_processor := "stripe",
               amount := ev0.data_object.amount_paid,
               currency := ev0.data_object.currency,
               invoice_id := ev0.data_object.id,
               metadata := serializeInvoice ev0.data_object }],
          links := sProgNoEnroll.links.map (fun l =>
            if l.id == leadP.link_id then
              { l with sales := l.sales + 1,
                       saleAmount := l.saleAmount + ev0.data_object.amount_paid }
            else l),
          projects := sProgNoEnroll.projects.map (fun p =>
            if p.id == cust1.projectId then
              { p with usage := p.usage + 1,
                       salesUsage := p.salesUsage + ev0.data_object.amount_paid }
            else p) },
       .thrown ("No ProgramEnrollment found for link " ++ linkP.id)) :=
  invoicePaid_enrollment_missing prep0 "e" ev0 sProgNoEnroll cust1 leadP [] linkP
    "prog_1" proj1 (by decide) (by decide) (by decide) (by decide) (by decide)
    (by decide) (by decide) (by decide)

/-- C9: for every processed sale (whether or not the link carries a
program id, provided the program branch does not throw), exactly one
workspace webhook is dispatched, and its payload's click-attribution
timestamp is the customer's `clickedAt` when non-null and the customer's
`createdAt` otherwise (`Option.getD`), while the payload carries the
post-increment link (sales and saleAmount already updated) rather than
the pre-update link. -/
theorem invoicePaid_webhook_fields (prep : PrepareEarningsArgs → EarningsData)
    (eventId : String) (event : StripeEvent) (s : St) (customer : Customer)
    (lead : LeadEventData) (rest : List LeadEventData) (link : Link)
    (proj : Project)
    (hc : s.customers.find?
      (fun c => c.stripeCustomerId == event.data_object.customer) = some customer)
    (hk : s.redisKeys.find? (fun kv => kv.1 == dedupKey event.data_object.id) = none)
    (h0 : event.data_object.amount_paid ≠ 0)
    (hl : s.leadEvents.filter (fun e => e.customer_id == customer.id) = lead :: rest)
    (hlink : s.links.find? (fun l => l.id == lead.link_id) = some link)
    (hproj : s.projects.find? (fun p => p.id == customer.projectId) = some proj)
    (hprog : link.programId = none ∨
      ∃ en, s.enrollments.find? (fun en => en.linkIds.contains link.id) = some en) :
    ∃ wh, (invoicePaid prep eventId event s).1.workspaceWebhooks =
        s.workspaceWebhooks ++ [wh] ∧
      wh.clickedAt = customer.clickedAt.getD customer.createdAt ∧
      wh.link = { link with sales := link.sales + 1,
                            saleAmount := link.saleAmount + event.data_object.amount_paid } := by
  have h0' : (event.data_object.amount_paid == 0) = false := by simp [h0]
  rcases hprog with hp | ⟨en, hen⟩
  · simp only [invoicePaid, hc, hk, h0', hl, hlink, hp, hproj]
    simp only [Option.isSome_none, Bool.false_eq_true, if_false]
    exact ⟨_, rfl, rfl, by simp [hp]⟩
  · cases hpid : link.programId with
    | none =>
      simp only [invoicePaid, hc, hk, h0', hl, hlink, hpid, hproj]
      simp only [Option.isSome_none, Bool.false_eq_true, if_false]
      exact ⟨_, rfl, rfl, by simp [hpid]⟩
    | some pid =>
      simp only [invoicePaid, hc, hk, h0', hl, hlink, hpid, hproj, hen]
      simp only [Option.isSome_none, Bool.false_eq_true, if_false]
      exact ⟨_, rfl, rfl, by simp [hpid]⟩

/-- Witness for `invoicePaid_webhook_fields` at the concrete scenario
`s0`. -/
theorem invoicePaid_webhook_fields_witness :
    ∃ wh, (invoicePaid prep0 "e" ev0 s0).1.workspaceWebhooks =
        s0.workspaceWebhooks ++ [wh] ∧
      wh.clickedAt = cust1.clickedAt.getD cust1.createdAt ∧
      wh.link = { link1 with sales := link1.sales + 1,
                             saleAmount := link1.saleAmount + ev0.data_object.amount_paid } :=
  invoicePaid_webhook_fields prep0 "e" ev0 s0 cust1 lead1 [] link1 proj1
    (by decide) (by decide) (by decide) (by decide) (by decide) (by decide)
    (Or.inl (by decide))
